import Mathlib

/-!
Verification of the utility modules of this repository against their
natural-language specification.  Python strings are embedded as `List Char`,
Python `datetime.date` / `datetime.time` / `datetime.datetime` values as plain
record types over `Nat`, and fallible Python code as `Except`-valued
functions.  Each definition mirrors one function of the source tree
(`src/api/utils/...`); external libraries (loguru, APScheduler, dateutil)
are modelled only through the exact surface the source code touches.
-/

/-- Embedding of a Python `str` as its list of characters. -/
abbrev PyStr := List Char

/-- Python `str.lower()` (ASCII-faithful model). -/
def pyLower (s : PyStr) : PyStr := s.map Char.toLower

/-- Python `str.upper()` (ASCII-faithful model). -/
def pyUpper (s : PyStr) : PyStr := s.map Char.toUpper

/-- Python `str.strip()`: remove leading and trailing whitespace. -/
def pyStrip (s : PyStr) : PyStr :=
  ((s.dropWhile Char.isWhitespace).reverse.dropWhile Char.isWhitespace).reverse

/-- Embedding of Python `datetime.date`. -/
structure PyDate where
  year : Nat
  month : Nat
  day : Nat
deriving DecidableEq

/-- Embedding of Python `datetime.time`. -/
structure PyTime where
  hour : Nat
  minute : Nat
  second : Nat
  microsecond : Nat
deriving DecidableEq

/-- Embedding of Python `datetime.datetime` (`datetime.combine(date, time)`). -/
structure PyDateTime where
  date : PyDate
  time : PyTime
deriving DecidableEq

/-- Python `datetime.time.min` = `00:00:00.000000`. -/
def timeMin : PyTime := ⟨0, 0, 0, 0⟩

/-- Python `datetime.time.max` = `23:59:59.999999`. -/
def timeMax : PyTime := ⟨23, 59, 59, 999999⟩

/-- Numeric value of a decimal digit character. -/
def digitVal (c : Char) : Nat := c.toNat - ('0').toNat

/-- Python `int(...)` on a non-empty digit string. -/
def natOfDigits (ds : PyStr) : Nat := ds.foldl (fun acc c => acc * 10 + digitVal c) 0

/-- Gregorian leap-year test, as used by `datetime`. -/
def isLeapYear (y : Nat) : Bool :=
  y % 4 == 0 && (y % 100 != 0 || y % 400 == 0)

/-- Number of days of a month, as validated by the `datetime` constructor. -/
def daysInMonth (y m : Nat) : Nat :=
  if m = 2 then (if isLeapYear y then 29 else 28)
  else if m = 4 ∨ m = 6 ∨ m = 9 ∨ m = 11 then 30
  else 31

/-- The `datetime(...)` constructor: validates every field and fails with
`ValueError` (here: `none`) on an out-of-range component. -/
def mkDateTime (y mo d h mi s micro : Nat) : Option PyDateTime :=
  if 1 ≤ y ∧ y ≤ 9999 ∧ 1 ≤ mo ∧ mo ≤ 12 ∧ 1 ≤ d ∧ d ≤ daysInMonth y mo ∧
     h ≤ 23 ∧ mi ≤ 59 ∧ s ≤ 59 ∧ micro ≤ 999999 then
    some ⟨⟨y, mo, d⟩, ⟨h, mi, s, micro⟩⟩
  else none

/-! ### CPython `_strptime` component matchers

CPython compiles each `strptime` directive to a regular expression:
`%Y` ↦ `\d\d\d\d` (exactly four digits), `%m` ↦ `1[0-2]|0[1-9]|[1-9]`,
`%d` ↦ `3[01]|[12]\d|0[1-9]|[1-9]`, `%H` ↦ `2[0-3]|[0-1]\d|\d`,
`%M` ↦ `[0-5]\d|\d`, `%S` ↦ `6[0-1]|[0-5]\d|\d`, and requires the whole
input to be consumed.  Each matcher below consumes from the front of the
character list and returns the parsed value plus the rest. -/

/-- `%Y`: exactly four digits. -/
def pYear : PyStr → Option (Nat × PyStr)
  | a :: b :: c :: d :: r =>
    if a.isDigit ∧ b.isDigit ∧ c.isDigit ∧ d.isDigit then
      some (((digitVal a * 10 + digitVal b) * 10 + digitVal c) * 10 + digitVal d, r)
    else none
  | _ => none

/-- `%m`: `1[0-2]|0[1-9]|[1-9]`, alternatives tried left to right. -/
def pMonth : PyStr → Option (Nat × PyStr)
  | a :: b :: r =>
    if a = '1' ∧ '0' ≤ b ∧ b ≤ '2' then some (10 + digitVal b, r)
    else if a = '0' ∧ '1' ≤ b ∧ b ≤ '9' then some (digitVal b, r)
    else if '1' ≤ a ∧ a ≤ '9' then some (digitVal a, b :: r)
    else none
  | [a] => if '1' ≤ a ∧ a ≤ '9' then some (digitVal a, []) else none
  | [] => none

/-- `%d`: `3[01]|[12]\d|0[1-9]|[1-9]`. -/
def pDay : PyStr → Option (Nat × PyStr)
  | a :: b :: r =>
    if a = '3' ∧ (b = '0' ∨ b = '1') then some (30 + digitVal b, r)
    else if (a = '1' ∨ a = '2') ∧ b.isDigit then some (digitVal a * 10 + digitVal b, r)
    else if a = '0' ∧ '1' ≤ b ∧ b ≤ '9' then some (digitVal b, r)
    else if '1' ≤ a ∧ a ≤ '9' then some (digitVal a, b :: r)
    else none
  | [a] => if '1' ≤ a ∧ a ≤ '9' then some (digitVal a, []) else none
  | [] => none

/-- `%H`: `2[0-3]|[0-1]\d|\d`. -/
def pHour : PyStr → Option (Nat × PyStr)
  | a :: b :: r =>
    if a = '2' ∧ '0' ≤ b ∧ b ≤ '3' then some (20 + digitVal b, r)
    else if (a = '0' ∨ a = '1') ∧ b.isDigit then some (digitVal a * 10 + digitVal b, r)
    else if a.isDigit then some (digitVal a, b :: r)
    else none
  | [a] => if a.isDigit then some (digitVal a, []) else none
  | [] => none

/-- `%M`: `[0-5]\d|\d`. -/
def pMinute : PyStr → Option (Nat × PyStr)
  | a :: b :: r =>
    if '0' ≤ a ∧ a ≤ '5' ∧ b.isDigit then some (digitVal a * 10 + digitVal b, r)
    else if a.isDigit then some (digitVal a, b :: r)
    else none
  | [a] => if a.isDigit then some (digitVal a, []) else none
  | [] => none

/-- `%S`: `6[0-1]|[0-5]\d|\d`. -/
def pSecond : PyStr → Option (Nat × PyStr)
  | a :: b :: r =>
    if a = '6' ∧ (b = '0' ∨ b = '1') then some (60 + digitVal b, r)
    else if '0' ≤ a ∧ a ≤ '5' ∧ b.isDigit then some (digitVal a * 10 + digitVal b, r)
    else if a.isDigit then some (digitVal a, b :: r)
    else none
  | [a] => if a.isDigit then some (digitVal a, []) else none
  | [] => none

/-- Literal character of the format string. -/
def pLit (c : Char) : PyStr → Option PyStr
  | a :: r => if a = c then some r else none
  | [] => none

/-- `datetime.strptime(s, "%Y-%m-%d %H:%M:%S")`: match the directives and
literals in sequence, require the whole input consumed, then build the
datetime (whose constructor validates the ranges). -/
def strpYmdHMS (s : PyStr) : Option PyDateTime :=
  (pYear s).bind fun (y, r1) =>
  (pLit '-' r1).bind fun r2 =>
  (pMonth r2).bind fun (mo, r3) =>
  (pLit '-' r3).bind fun r4 =>
  (pDay r4).bind fun (d, r5) =>
  (pLit ' ' r5).bind fun r6 =>
  (pHour r6).bind fun (h, r7) =>
  (pLit ':' r7).bind fun r8 =>
  (pMinute r8).bind fun (mi, r9) =>
  (pLit ':' r9).bind fun r10 =>
  (pSecond r10).bind fun (sec, r11) =>
  if r11 = [] then mkDateTime y mo d h mi sec 0 else none

/-- `datetime.strptime(s, "%Y-%m-%d %H:%M")`. -/
def strpYmdHM (s : PyStr) : Option PyDateTime :=
  (pYear s).bind fun (y, r1) =>
  (pLit '-' r1).bind fun r2 =>
  (pMonth r2).bind fun (mo, r3) =>
  (pLit '-' r3).bind fun r4 =>
  (pDay r4).bind fun (d, r5) =>
  (pLit ' ' r5).bind fun r6 =>
  (pHour r6).bind fun (h, r7) =>
  (pLit ':' r7).bind fun r8 =>
  (pMinute r8).bind fun (mi, r9) =>
  if r9 = [] then mkDateTime y mo d h mi 0 0 else none

/-- `datetime.strptime(s, "%Y-%m-%d")`. -/
def strpYmd (s : PyStr) : Option PyDateTime :=
  (pYear s).bind fun (y, r1) =>
  (pLit '-' r1).bind fun r2 =>
  (pMonth r2).bind fun (mo, r3) =>
  (pLit '-' r3).bind fun r4 =>
  (pDay r4).bind fun (d, r5) =>
  if r5 = [] then mkDateTime y mo d 0 0 0 0 else none

/-! ### `src/api/utils/time_range_bound.py` -/

/-- The `Union[str, datetime, date]` argument type of `parse_time_input`. -/
inductive TimeInput where
  | dt (v : PyDateTime)
  | date (v : PyDate)
  | str (s : PyStr)
deriving DecidableEq

/-- Errors raised by the time-range module (message included, since the
module raises two distinct `ValueError`s). -/
inductive TRErr where
  | valueError (msg : PyStr)
  | typeError (msg : PyStr)
deriving DecidableEq

/-- Message of `ValueError(f"Unable to parse time string: \x7btime_input\x7d")`. -/
def unableMsg (s : PyStr) : PyStr := ("Unable to parse time string: ").toList ++ s

/-- Message of `ValueError("At least one of start or end must be provided")`. -/
def mustProvideMsg : PyStr := ("At least one of start or end must be provided").toList

/-- `parse_time_input` (`time_range_bound.py`): a datetime passes through, a
date is combined with `time.min`, and a string is tried against the three
fixed formats in order, raising `ValueError` when none matches. -/
def parse_time_input : TimeInput → Except TRErr PyDateTime
  | .dt v => .ok v
  | .date v => .ok ⟨v, timeMin⟩
  | .str s =>
    match strpYmdHMS s with
    | some dtv => .ok dtv
    | none =>
      match strpYmdHM s with
      | some dtv => .ok dtv
      | none =>
        match strpYmd s with
        | some dtv => .ok dtv
        | none => .error (.valueError (unableMsg s))

/-- Python truthiness of a `Union[str, datetime, date]` value: only the
empty string is falsy. -/
def tiTruthy : TimeInput → Bool
  | .str s => !s.isEmpty
  | _ => true

/-- Python truthiness of the optional bound (`None` is falsy). -/
def optTruthy : Option TimeInput → Bool
  | none => false
  | some x => tiTruthy x

/-- `parse_time_input(b) if b else None`. -/
def parseOptBound (b : Option TimeInput) : Except TRErr (Option PyDateTime) :=
  match b with
  | some x => if tiTruthy x then (parse_time_input x).map some else .ok none
  | none => .ok none

/-- The end-of-day widening step of `get_time_range_bounds`: applies when the
end bound parsed to a value and the supplied end was a `str` of length 10 or
a `date` (never a `datetime`). -/
def widenEnd (stop : Option TimeInput) (end_dt : Option PyDateTime) : Option PyDateTime :=
  match end_dt, stop with
  | some ed, some (.str s) => if s.length = 10 then some ⟨ed.date, timeMax⟩ else some ed
  | some ed, some (.date _) => some ⟨ed.date, timeMax⟩
  | _, _ => end_dt

/-- `get_time_range_bounds` (`time_range_bound.py`): parse each supplied
bound, then widen a date-only end bound to the last instant of its day.
The `inclusive` argument is accepted and unused, as in the source. -/
def get_time_range_bounds (start stop : Option TimeInput) (inclusive : PyStr) :
    Except TRErr (Option PyDateTime × Option PyDateTime) :=
  match parseOptBound start with
  | .error e => .error e
  | .ok start_dt =>
    match parseOptBound stop with
    | .error e => .error e
    | .ok end_dt => .ok (start_dt, widenEnd stop end_dt)

/-- The `range_params` dict built by `build_time_range_query`. -/
structure RangeParams where
  gte : Option PyStr := none
  gt : Option PyStr := none
  lte : Option PyStr := none
  lt : Option PyStr := none
deriving DecidableEq

/-- The `Q('range', **\x7bfield: range_params\x7d)` result object. -/
structure RangeQ where
  field : PyStr
  params : RangeParams
deriving DecidableEq

/-- Python `datetime.isoformat()`: `YYYY-MM-DDTHH:MM:SS[.ffffff]`, the
microsecond part printed only when non-zero. -/
def isoformat (d : PyDateTime) : PyStr :=
  let pad := fun (w n : Nat) =>
    let ds := Nat.toDigits 10 n
    List.replicate (w - ds.length) '0' ++ ds
  pad 4 d.date.year ++ ('-' :: pad 2 d.date.month) ++ ('-' :: pad 2 d.date.day) ++
    ('T' :: pad 2 d.time.hour) ++ (':' :: pad 2 d.time.minute) ++
    (':' :: pad 2 d.time.second) ++
    (if d.time.microsecond = 0 then [] else '.' :: pad 6 d.time.microsecond)

/-- `build_time_range_query` (`time_range_bound.py`): select `gte`/`gt` for
the start bound and `lte`/`lt` for the end bound according to `inclusive`,
and raise `ValueError` when the parameter dict stays empty. -/
def build_time_range_query (field : PyStr) (start stop : Option TimeInput)
    (inclusive : PyStr) : Except TRErr RangeQ :=
  match get_time_range_bounds start stop inclusive with
  | .error e => .error e
  | .ok (start_dt, end_dt) =>
    let p1 : RangeParams :=
      match start_dt with
      | some sd =>
        if inclusive = ("both").toList ∨ inclusive = ("start").toList then
          { gte := some (isoformat sd) }
        else { gt := some (isoformat sd) }
      | none => {}
    let p2 : RangeParams :=
      match end_dt with
      | some ed =>
        if inclusive = ("both").toList ∨ inclusive = ("end").toList then
          { p1 with lte := some (isoformat ed) }
        else { p1 with lt := some (isoformat ed) }
      | none => p1
    if p2 = ({} : RangeParams) then .error (.valueError mustProvideMsg)
    else .ok ⟨field, p2⟩

/-! ### `src/api/utils/auth.py` -/

/-- The request-context inputs `check_user_access` depends on: two
environment variables, the request's remote address, the machine hostname,
the Flask environment flags, and the `LASTUSER` cookie. -/
structure RequestCtx where
  dataSourceMode : Option PyStr
  remoteAddr : PyStr
  nodeName : PyStr
  flaskEnv : Option PyStr
  flaskDebug : Option PyStr
  lastuserCookie : Option PyStr
deriving DecidableEq

/-- The loopback address list checked by `is_development_environment`. -/
def loopback_addrs : List PyStr :=
  [("127.0.0.1").toList, ("localhost").toList, ("::1").toList]

/-- `is_development_environment` (`auth.py`): dummy data-source mode from a
loopback address, a hostname starting with `DESKTOP`, or a Flask
development/debug flag. -/
def is_development_environment (ctx : RequestCtx) : Bool :=
  if ctx.dataSourceMode = some (("dummy").toList) ∧ ctx.remoteAddr ∈ loopback_addrs then
    true
  else if (("DESKTOP").toList).isPrefixOf (pyUpper ctx.nodeName) then
    true
  else if ctx.flaskEnv = some (("development").toList) ∨
          ctx.flaskDebug = some (("1").toList) then
    true
  else false

/-- `is_restricted_user` (`auth.py`): falsy user id is not restricted;
otherwise restricted when `user_id.lower().startswith('x')`. -/
def is_restricted_user (user_id : PyStr) : Bool :=
  if user_id = [] then false
  else (("x").toList).isPrefixOf (pyLower user_id)

/-- `get_user_from_cookie` (`auth.py`): `request.cookies.get('LASTUSER')`. -/
def get_user_from_cookie (ctx : RequestCtx) : Option PyStr :=
  ctx.lastuserCookie

/-- `check_user_access` (`auth.py`): development bypass first, then the
cookie check; `if not user_id` covers both an absent and an empty cookie. -/
def check_user_access (ctx : RequestCtx) : Bool × Option PyStr :=
  if is_development_environment ctx then
    (true, some (("dev_user").toList))
  else
    match get_user_from_cookie ctx with
    | none => (false, none)
    | some u =>
      if u = [] then (false, none)
      else (!(is_restricted_user u), some u)

/-! ### `src/api/utils/datetime_converter.py`

`dateutil.parser.parse` and `relativedelta` are third-party collaborators:
the former is passed in as a fallible function (its failure exceptions
`ParserError`/`ValueError` are the ones the source catches), the latter as
an abstract shift function `PyDateTime → Int → TimeUnit → PyDateTime`. -/

/-- Exceptions a `dateutil.parser.parse` call can raise; the source catches
exactly `parser.ParserError` and `ValueError`, anything else propagates. -/
inductive DuErr where
  | parserError
  | valueError
  | otherErr
deriving DecidableEq

/-- A `parse` attempt failed with one of the exceptions the source catches. -/
def duFails (r : Except DuErr PyDateTime) : Prop :=
  r = .error .parserError ∨ r = .error .valueError

/-- Units of the relative-offset patterns of `parse_relative_date`. -/
inductive TimeUnit where
  | day
  | week
  | month
  | year
deriving DecidableEq

/-- Shape of the modelled `relativedelta` arithmetic: shift a datetime by a
signed number of the given unit. -/
abbrev RelShift := PyDateTime → Int → TimeUnit → PyDateTime

/-- The inputs `parse_date_string` can receive: a string, `None`, or a
truthy value of another type. -/
inductive PyValue where
  | str (s : PyStr)
  | noneV
  | other

/-- Result type of `parse_date_string`: a datetime or its ISO string. -/
inductive DtOrStr where
  | dt (v : PyDateTime)
  | iso (s : PyStr)
deriving DecidableEq

/-- `d.replace(microsecond=m)`. -/
def setMicro (d : PyDateTime) (m : Nat) : PyDateTime :=
  { d with time := { d.time with microsecond := m } }

/-- Strip a literal token from the front of the string. -/
def stripTok (tok : PyStr) (s : PyStr) : Option PyStr :=
  if tok.isPrefixOf s then some (s.drop tok.length) else none

/-- Regex search: try the matcher at every start position, leftmost first
(the semantics of `re.search`). -/
def searchPos (p : PyStr → Option Nat) : PyStr → Option Nat
  | [] => p []
  | c :: r =>
    match p (c :: r) with
    | some v => some v
    | none => searchPos p r

/-- Match `(\d+)\s*<unit>s?\s*ago` at the current position, returning the
captured number.  The optional `s` backtracks as the regex engine does. -/
def matchNumUnitAgo (unitWord : PyStr) (s : PyStr) : Option Nat :=
  let ds := s.takeWhile Char.isDigit
  if ds = [] then none
  else
    let r := (s.dropWhile Char.isDigit).dropWhile Char.isWhitespace
    match stripTok unitWord r with
    | none => none
    | some r2 =>
      let tail := fun (t : PyStr) =>
        (("ago").toList).isPrefixOf (t.dropWhile Char.isWhitespace)
      let matched :=
        match r2 with
        | 's' :: r3 => tail r3 || tail r2
        | _ => tail r2
      if matched then some (natOfDigits ds) else none

/-- Match `in\s*(\d+)\s*<unit>s?` at the current position (the trailing
optional `s` constrains nothing). -/
def matchInNumUnit (unitWord : PyStr) (s : PyStr) : Option Nat :=
  match stripTok (("in").toList) s with
  | none => none
  | some r =>
    let r := r.dropWhile Char.isWhitespace
    let ds := r.takeWhile Char.isDigit
    if ds = [] then none
    else
      let r2 := (r.dropWhile Char.isDigit).dropWhile Char.isWhitespace
      match stripTok unitWord r2 with
      | none => none
      | some _ => some (natOfDigits ds)

/-- The eight `<N> unit(s) ago` / `in <N> unit(s)` patterns of
`parse_relative_date`, tried in source order over the lowered string. -/
def relPatterns (applyRel : RelShift) (now : PyDateTime) (lower : PyStr) :
    Option PyDateTime :=
  ((searchPos (matchNumUnitAgo (("day").toList)) lower).map
      (fun n => applyRel now (-(n : Int)) .day)) <|>
  ((searchPos (matchNumUnitAgo (("week").toList)) lower).map
      (fun n => applyRel now (-(n : Int)) .week)) <|>
  ((searchPos (matchNumUnitAgo (("month").toList)) lower).map
      (fun n => applyRel now (-(n : Int)) .month)) <|>
  ((searchPos (matchNumUnitAgo (("year").toList)) lower).map
      (fun n => applyRel now (-(n : Int)) .year)) <|>
  ((searchPos (matchInNumUnit (("day").toList)) lower).map
      (fun n => applyRel now (n : Int) .day)) <|>
  ((searchPos (matchInNumUnit (("week").toList)) lower).map
      (fun n => applyRel now (n : Int) .week)) <|>
  ((searchPos (matchInNumUnit (("month").toList)) lower).map
      (fun n => applyRel now (n : Int) .month)) <|>
  ((searchPos (matchInNumUnit (("year").toList)) lower).map
      (fun n => applyRel now (n : Int) .year))

/-- `parse_relative_date` (`datetime_converter.py`): the fixed table of ten
relative phrases, then the eight offset patterns. -/
def parse_relative_date (applyRel : RelShift) (now : PyDateTime) (s : PyStr) :
    Option PyDateTime :=
  let lower := pyLower s
  if lower = ("today").toList ∨ lower = ("now").toList then some now
  else if lower = ("yesterday").toList then some (applyRel now (-1) .day)
  else if lower = ("tomorrow").toList then some (applyRel now 1 .day)
  else if lower = ("last week").toList then some (applyRel now (-1) .week)
  else if lower = ("next week").toList then some (applyRel now 1 .week)
  else if lower = ("last month").toList then some (applyRel now (-1) .month)
  else if lower = ("next month").toList then some (applyRel now 1 .month)
  else if lower = ("last year").toList then some (applyRel now (-1) .year)
  else if lower = ("next year").toList then some (applyRel now 1 .year)
  else relPatterns applyRel now lower

/-- Post-process a successfully obtained datetime exactly as each branch of
`parse_date_string` does: drop microseconds on request, then either return
the datetime or its ISO string. -/
def finishDate (dtv : PyDateTime) (return_iso include_microseconds : Bool) : DtOrStr :=
  let dtv := if include_microseconds then dtv else setMicro dtv 0
  if return_iso then .iso (isoformat dtv) else .dt dtv

/-- `parse_date_string` (`datetime_converter.py`): falsy or non-string input
yields `None`; otherwise strip, try the relative table/patterns, then the
two `dateutil` attempts (`dayfirst=False`, then `dayfirst=True`), catching
only `ParserError`/`ValueError`; if everything fails, return `None`. -/
def parse_date_string (applyRel : RelShift)
    (du1 du2 : PyStr → Except DuErr PyDateTime) (now : PyDateTime)
    (input : PyValue) (return_iso include_microseconds : Bool) :
    Except DuErr (Option DtOrStr) :=
  match input with
  | .noneV => .ok none
  | .other => .ok none
  | .str s0 =>
    if s0 = [] then .ok none
    else
      let s := pyStrip s0
      match parse_relative_date applyRel now s with
      | some rd => .ok (some (finishDate rd return_iso include_microseconds))
      | none =>
        match du1 s with
        | .ok dtv => .ok (some (finishDate dtv return_iso include_microseconds))
        | .error e1 =>
          if e1 = .parserError ∨ e1 = .valueError then
            match du2 s with
            | .ok dtv => .ok (some (finishDate dtv return_iso include_microseconds))
            | .error e2 =>
              if e2 = .parserError ∨ e2 = .valueError then .ok none
              else .error e2
          else .error e1

/-! ### `src/api/utils/logger_manager.py`

The loguru backend is modelled by its handler registry: a list of live
handler identifiers plus a monotone identifier counter.  `logger.add`
returns the next identifier, `logger.remove(id)` raises `ValueError` for an
identifier that is not registered, `logger.remove()` drops every handler.
`builtins.print` is modelled as a value of an abstract type `P` held in a
`PrintState`. -/

/-- The exception loguru's `logger.remove(handler_id)` raises for an
unknown identifier. -/
inductive LogErr where
  | valueError
deriving DecidableEq

/-- The loguru handler registry. -/
structure LoguruState where
  handlers : List Nat
  nextId : Nat
deriving DecidableEq

/-- `logger.add(...)`: registers a sink and returns its identifier. -/
def loguru_add (lg : LoguruState) : Nat × LoguruState :=
  (lg.nextId, ⟨lg.handlers ++ [lg.nextId], lg.nextId + 1⟩)

/-- `logger.remove()` with no argument: drop every handler. -/
def loguru_remove_all (lg : LoguruState) : LoguruState :=
  ⟨[], lg.nextId⟩

/-- `logger.remove(handler_id)`: raises `ValueError` when no live handler
carries that identifier. -/
def loguru_remove (i : Nat) (lg : LoguruState) : Except LogErr LoguruState :=
  if i ∈ lg.handlers then .ok ⟨lg.handlers.erase i, lg.nextId⟩
  else .error .valueError

/-- The `builtins.print` slot together with the `LoggerManager`'s saved
original and redirect flag (`_original_print`, `_print_redirected`). -/
structure PrintState (P : Type) where
  builtinsPrint : P
  originalPrint : P
  printRedirected : Bool
deriving DecidableEq

/-- `_redirect_print` (`logger_manager.py`): a no-op when already
redirected, else install the custom print and set the flag. -/
def redirect_print {P : Type} (custom : P) (st : PrintState P) : PrintState P :=
  if st.printRedirected then st
  else { st with builtinsPrint := custom, printRedirected := true }

/-- `restore_print` (`logger_manager.py`): only when redirected, put the
original print back and clear the flag. -/
def restore_print {P : Type} (st : PrintState P) : PrintState P :=
  if st.printRedirected then
    { st with builtinsPrint := st.originalPrint, printRedirected := false }
  else st

/-- The `LoggerManager` fields that the handler lifecycle touches:
`_handler_ids`, the print state, and the configuration fields
`enable_print_redirect`, `extra_handlers` (by count) and `filter_func`
(abstract type `F`). -/
structure LMState (P F : Type) where
  handler_ids : List Nat
  printState : PrintState P
  enable_print_redirect : Bool
  extraHandlers : Nat
  filter_func : Option F
deriving DecidableEq

/-- Register `n` extra handlers in order, collecting their identifiers. -/
def addExtras : Nat → LoguruState → List Nat × LoguruState
  | 0, lg => ([], lg)
  | n + 1, lg =>
    let (h, lg1) := loguru_add lg
    let (hs, lg2) := addExtras n lg1
    (h :: hs, lg2)

/-- `_setup_logger` (`logger_manager.py`): `logger.remove()` everything,
register the console sink, the file sink and the extra sinks (appending
their identifiers to `_handler_ids`), then redirect print if enabled. -/
def setup_logger {P F : Type} (st : LMState P F) (custom : P) (lg : LoguruState) :
    LMState P F × LoguruState :=
  let lg0 := loguru_remove_all lg
  let (h1, lg1) := loguru_add lg0
  let (h2, lg2) := loguru_add lg1
  let (hs, lg3) := addExtras st.extraHandlers lg2
  let ids := st.handler_ids ++ [h1, h2] ++ hs
  let pr := if st.enable_print_redirect then redirect_print custom st.printState
            else st.printState
  ({ st with handler_ids := ids, printState := pr }, lg3)

/-- `add_handler` (`logger_manager.py`): `logger.add(**kwargs)`, record and
return the identifier. -/
def add_handler {P F : Type} (st : LMState P F) (lg : LoguruState) :
    Nat × LMState P F × LoguruState :=
  let (h, lg1) := loguru_add lg
  (h, { st with handler_ids := st.handler_ids ++ [h] }, lg1)

/-- `remove_handler` (`logger_manager.py`): `logger.remove(handler_id)` with
no exception handling, then drop the identifier from `_handler_ids` when
present. -/
def remove_handler {P F : Type} (i : Nat) (st : LMState P F) (lg : LoguruState) :
    Except LogErr (LMState P F × LoguruState) :=
  match loguru_remove i lg with
  | .error e => .error e
  | .ok lg1 =>
    .ok ({ st with handler_ids :=
            if i ∈ st.handler_ids then st.handler_ids.erase i else st.handler_ids },
         lg1)

/-- The `try: logger.remove(handler_id) except ValueError: pass` loop body
of `cleanup`. -/
def removeTolerant : List Nat → LoguruState → LoguruState
  | [], lg => lg
  | i :: is, lg =>
    removeTolerant is
      (match loguru_remove i lg with
       | .ok lg1 => lg1
       | .error _ => lg)

/-- `cleanup` (`logger_manager.py`): tolerantly remove every tracked
handler, clear `_handler_ids`, and restore print. -/
def cleanup {P F : Type} (st : LMState P F) (lg : LoguruState) :
    LMState P F × LoguruState :=
  let lg1 := removeTolerant st.handler_ids lg
  ({ st with handler_ids := [], printState := restore_print st.printState }, lg1)

/-- `set_filter` (`logger_manager.py`): store the new filter, then
`cleanup()` followed by `_setup_logger()`. -/
def set_filter {P F : Type} (f : Option F) (st : LMState P F) (custom : P)
    (lg : LoguruState) : LMState P F × LoguruState :=
  let st1 := { st with filter_func := f }
  let (st2, lg1) := cleanup st1 lg
  setup_logger st2 custom lg1

/-! Concrete run used to settle the claim about `remove_handler` after
`set_filter`: a fresh manager (no extra sinks, no print redirect), one
`add_handler` call, then `set_filter`. -/

/-- A fresh `LoggerManager.__init__` run: empty bookkeeping state, then
`_setup_logger` against a fresh loguru registry. -/
def c1Init : LMState Unit Unit × LoguruState :=
  setup_logger ⟨[], ⟨(), (), false⟩, false, 0, none⟩ () ⟨[], 0⟩

/-- `add_handler` on the fresh manager: returns identifier 2. -/
def c1Add : Nat × LMState Unit Unit × LoguruState :=
  add_handler c1Init.1 c1Init.2

/-- `set_filter(f)` after the `add_handler` call: tears down handlers
0, 1, 2 and registers fresh identifiers 3 and 4. -/
def c1AfterSetFilter : LMState Unit Unit × LoguruState :=
  set_filter (some ()) c1Add.2.1 () c1Add.2.2

/-! ### `src/api/utils/scheduler.py`

Only the job-wrapping path is needed: a scheduled callable is modelled as a
function `Unit → Except E A` (one invocation either returns a value or
raises), and the task logger's emissions as a list of entries. -/

/-- Log entries the job wrapper emits through the task logger. -/
inductive JobLog where
  | started (name : PyStr)
  | succeeded (name : PyStr)
  | failed (name : PyStr)
deriving DecidableEq

/-- `logged_job_wrapper` (`scheduler.py`, inside `add_job`): log start,
invoke the callable, log success and return its result, or log the failure
and re-raise the same exception. -/
def logged_job_wrapper {E A : Type} (job_name : PyStr) (func : Unit → Except E A) :
    Unit → Except E A × List JobLog :=
  fun u =>
    match func u with
    | .ok r => (.ok r, [.started job_name, .succeeded job_name])
    | .error e => (.error e, [.started job_name, .failed job_name])

/-- `SchedulerManager.add_job` (`scheduler.py`): derive the job name from
the explicit option or the callable's `__name__`, wrap the callable with
`logged_job_wrapper`, and register it with the backend (modelled as
appending to the backend's job list). -/
def add_job {E A : Type} (jobs : List (PyStr × (Unit → Except E A × List JobLog)))
    (nameOpt : Option PyStr) (funcName : PyStr) (func : Unit → Except E A) :
    List (PyStr × (Unit → Except E A × List JobLog)) :=
  let job_name := nameOpt.getD funcName
  jobs ++ [(job_name, logged_job_wrapper job_name func)]

/-! ## Theorems -/

/-- `is_development_environment` is false when every bypass condition is
absent. -/
theorem is_dev_env_false (ctx : RequestCtx)
    (h1 : ¬(ctx.dataSourceMode = some (("dummy").toList) ∧
            ctx.remoteAddr ∈ loopback_addrs))
    (h2 : (("DESKTOP").toList).isPrefixOf (pyUpper ctx.nodeName) = false)
    (h3 : ctx.flaskEnv ≠ some (("development").toList))
    (h4 : ctx.flaskDebug ≠ some (("1").toList)) :
    is_development_environment ctx = false := by
  unfold is_development_environment
  rw [if_neg h1, if_neg (by rw [h2]; exact Bool.false_ne_true),
    if_neg (not_or.mpr ⟨h3, h4⟩)]

/-- Restriction test on a non-empty cookie is exactly a case-insensitive
first-character comparison with `x`. -/
theorem is_restricted_user_cons (c : Char) (rest : PyStr) :
    is_restricted_user (c :: rest) = true ↔ c.toLower = 'x' := by
  have hx : (("x").toList : List Char) = ['x'] := rfl
  have hmap : pyLower (c :: rest) = c.toLower :: pyLower rest := rfl
  rw [is_restricted_user, if_neg (List.cons_ne_nil c rest), hx, hmap,
    List.isPrefixOf_cons₂]
  simp only [List.isPrefixOf_nil_left, Bool.and_true, beq_iff_eq]
  exact eq_comm

/-- C2: with no development bypass, `check_user_access` denies with null
identity on a missing cookie, denies with the cookie identity when its
first character is (case-insensitively) `x`, and allows with the cookie
identity otherwise; with the dummy data-source flag set and a loopback
address it allows as `dev_user` regardless of cookie. -/
theorem check_user_access_spec :
    (∀ ctx : RequestCtx,
      ¬(ctx.dataSourceMode = some (("dummy").toList) ∧
        ctx.remoteAddr ∈ loopback_addrs) →
      (("DESKTOP").toList).isPrefixOf (pyUpper ctx.nodeName) = false →
      ctx.flaskEnv ≠ some (("development").toList) →
      ctx.flaskDebug ≠ some (("1").toList) →
      ((ctx.lastuserCookie = none → check_user_access ctx = (false, none)) ∧
       (∀ c rest, ctx.lastuserCookie = some (c :: rest) → c.toLower = 'x' →
          check_user_access ctx = (false, some (c :: rest))) ∧
       (∀ c rest, ctx.lastuserCookie = some (c :: rest) → c.toLower ≠ 'x' →
          check_user_access ctx = (true, some (c :: rest))))) ∧
    (∀ ctx : RequestCtx,
      ctx.dataSourceMode = some (("dummy").toList) →
      ctx.remoteAddr ∈ loopback_addrs →
      check_user_access ctx = (true, some (("dev_user").toList))) := by
  constructor
  · intro ctx h1 h2 h3 h4
    have hdev := is_dev_env_false ctx h1 h2 h3 h4
    refine ⟨?_, ?_, ?_⟩
    · intro hc
      simp [check_user_access, hdev, get_user_from_cookie, hc]
    · intro c rest hc hx
      have hr : is_restricted_user (c :: rest) = true :=
        (is_restricted_user_cons c rest).mpr hx
      simp [check_user_access, hdev, get_user_from_cookie, hc, hr]
    · intro c rest hc hx
      have hr : is_restricted_user (c :: rest) = false :=
        Bool.eq_false_iff.mpr (fun h => hx ((is_restricted_user_cons c rest).mp h))
      simp [check_user_access, hdev, get_user_from_cookie, hc, hr]
  · intro ctx hd ha
    have hdev : is_development_environment ctx = true := by
      unfold is_development_environment
      rw [if_pos ⟨hd, ha⟩]
    simp [check_user_access, hdev]

/-- C2 witness: concrete contexts exercising both halves. -/
theorem check_user_access_spec_witness :
    check_user_access
        ⟨none, [], ("SERVER1").toList, none, none, some (("maria").toList)⟩ =
      (true, some (("maria").toList)) ∧
    check_user_access
        ⟨some (("dummy").toList), ("127.0.0.1").toList, ("SERVER1").toList,
         none, none, some (("xavier").toList)⟩ =
      (true, some (("dev_user").toList)) :=
  ⟨(check_user_access_spec.1
      ⟨none, [], ("SERVER1").toList, none, none, some (("maria").toList)⟩
      (by simp) (by decide) (by simp) (by simp)).2.2
      'm' (("aria").toList) rfl (by decide),
   check_user_access_spec.2
      ⟨some (("dummy").toList), ("127.0.0.1").toList, ("SERVER1").toList,
       none, none, some (("xavier").toList)⟩
      rfl (by decide)⟩

/-- C10: with no development bypass, an empty-string `LASTUSER` cookie is
treated exactly like an absent one: denial with null identity, agreeing
with the same context without the cookie. -/
theorem check_user_access_empty_cookie (ctx : RequestCtx)
    (h1 : ¬(ctx.dataSourceMode = some (("dummy").toList) ∧
            ctx.remoteAddr ∈ loopback_addrs))
    (h2 : (("DESKTOP").toList).isPrefixOf (pyUpper ctx.nodeName) = false)
    (h3 : ctx.flaskEnv ≠ some (("development").toList))
    (h4 : ctx.flaskDebug ≠ some (("1").toList))
    (hc : ctx.lastuserCookie = some []) :
    check_user_access ctx = (false, none) ∧
    check_user_access ctx = check_user_access { ctx with lastuserCookie := none } := by
  have hdev := is_dev_env_false ctx h1 h2 h3 h4
  have hdev' : is_development_environment { ctx with lastuserCookie := none } = false :=
    is_dev_env_false _ h1 h2 h3 h4
  constructor
  · simp [check_user_access, hdev, get_user_from_cookie, hc]
  · simp [check_user_access, hdev, hdev', get_user_from_cookie, hc]

/-- C10 witness: a concrete context carrying an empty cookie. -/
theorem check_user_access_empty_cookie_witness :
    check_user_access ⟨none, [], ("SERVER1").toList, none, none, some []⟩ =
      (false, none) :=
  (check_user_access_empty_cookie
    ⟨none, [], ("SERVER1").toList, none, none, some []⟩
    (by simp) (by decide) (by simp) (by simp) rfl).1

/-- C9: two empty-string bounds are treated as absent: the bounds builder
returns `(None, None)` without a parse error, and the query builder then
raises the missing-bounds `ValueError`, not the unparseable-string one. -/
theorem empty_string_bounds_treated_absent (field inclusive : PyStr) :
    get_time_range_bounds (some (.str [])) (some (.str [])) inclusive =
      .ok (none, none) ∧
    build_time_range_query field (some (.str [])) (some (.str [])) inclusive =
      .error (.valueError mustProvideMsg) :=
  ⟨rfl, rfl⟩

/-- C3: the wrapper `add_job` installs is `logged_job_wrapper`, and on any
invocation the wrapper's outcome (value or raised exception) is exactly the
wrapped callable's outcome. -/
theorem add_job_wrapper_preserves_outcome (E A : Type)
    (jobs : List (PyStr × (Unit → Except E A × List JobLog)))
    (nameOpt : Option PyStr) (funcName : PyStr) (func : Unit → Except E A)
    (u : Unit) :
    (add_job jobs nameOpt funcName func).getLast? =
      some (nameOpt.getD funcName, logged_job_wrapper (nameOpt.getD funcName) func) ∧
    (logged_job_wrapper (nameOpt.getD funcName) func u).1 = func u := by
  constructor
  · simp [add_job]
  · unfold logged_job_wrapper
    cases h : func u <;> simp

/-- C8: `restore_print` on a non-redirected state is the identity, and
redirecting an already-redirected state is the identity. -/
theorem print_redirection_idempotent (P : Type) (custom : P) (st : PrintState P) :
    (st.printRedirected = false → restore_print st = st) ∧
    (st.printRedirected = true → redirect_print custom st = st) := by
  constructor
  · intro h; simp [restore_print, h]
  · intro h; simp [redirect_print, h]

/-- C8 witness: concrete print states on both sides. -/
theorem print_redirection_idempotent_witness :
    ((⟨0, 1, false⟩ : PrintState Nat).printRedirected = false ∧
      restore_print (⟨0, 1, false⟩ : PrintState Nat) = ⟨0, 1, false⟩) ∧
    ((⟨2, 3, true⟩ : PrintState Nat).printRedirected = true ∧
      redirect_print 9 (⟨2, 3, true⟩ : PrintState Nat) = ⟨2, 3, true⟩) :=
  ⟨⟨rfl, (print_redirection_idempotent Nat 9 ⟨0, 1, false⟩).1 rfl⟩,
   ⟨rfl, (print_redirection_idempotent Nat 9 ⟨2, 3, true⟩).2 rfl⟩⟩

/-- C1 counterexample: the identifier issued by `add_handler` before
`set_filter` is 2; calling `remove_handler 2` after `set_filter` raises
`ValueError` — it is not a no-op. -/
theorem remove_handler_after_set_filter_raises :
    c1Add.1 = 2 ∧
    remove_handler c1Add.1 c1AfterSetFilter.1 c1AfterSetFilter.2 =
      .error .valueError :=
  ⟨rfl, rfl⟩

/-- C1 amended: for every identifier no longer registered with the backend
(in particular any identifier issued before `set_filter`), `remove_handler`
raises the backend's `ValueError`; it does not swallow it. -/
theorem remove_handler_raises_for_stale (P F : Type) (i : Nat)
    (st : LMState P F) (lg : LoguruState) (h : i ∉ lg.handlers) :
    remove_handler i st lg = .error .valueError := by
  simp [remove_handler, loguru_remove, h]

/-- C1 amended witness: the concrete post-`set_filter` state. -/
theorem remove_handler_raises_for_stale_witness :
    (2 ∉ c1AfterSetFilter.2.handlers) ∧
    remove_handler 2 c1AfterSetFilter.1 c1AfterSetFilter.2 =
      .error .valueError :=
  ⟨by decide,
   remove_handler_raises_for_stale Unit Unit 2 c1AfterSetFilter.1
     c1AfterSetFilter.2 (by decide)⟩

/-- A literal directive consumes exactly one character. -/
theorem pLit_length (c : Char) (s r : PyStr) (h : pLit c s = some r) :
    s.length = r.length + 1 := by
  match s with
  | [] => simp [pLit] at h
  | a :: t =>
    simp only [pLit] at h
    split at h <;> simp_all

/-- The `%Y` directive consumes exactly four characters. -/
theorem pYear_length (s : PyStr) (v : Nat) (r : PyStr) (h : pYear s = some (v, r)) :
    s.length = r.length + 4 := by
  match s with
  | [] => simp [pYear] at h
  | [a] => simp [pYear] at h
  | [a, b] => simp [pYear] at h
  | [a, b, c] => simp [pYear] at h
  | a :: b :: c :: d :: t =>
    simp only [pYear] at h
    split at h <;> simp_all

/-- The `%m` directive consumes at least one character. -/
theorem pMonth_length (s : PyStr) (v : Nat) (r : PyStr) (h : pMonth s = some (v, r)) :
    r.length + 1 ≤ s.length := by
  match s with
  | [] => simp [pMonth] at h
  | [a] =>
    simp only [pMonth] at h
    split at h <;> simp_all
  | a :: b :: t =>
    simp only [pMonth] at h
    repeat' split at h
    all_goals simp_all

/-- The `%d` directive consumes at least one character. -/
theorem pDay_length (s : PyStr) (v : Nat) (r : PyStr) (h : pDay s = some (v, r)) :
    r.length + 1 ≤ s.length := by
  match s with
  | [] => simp [pDay] at h
  | [a] =>
    simp only [pDay] at h
    split at h <;> simp_all
  | a :: b :: t =>
    simp only [pDay] at h
    repeat' split at h
    all_goals simp_all

/-- The `%H` directive consumes at least one character. -/
theorem pHour_length (s : PyStr) (v : Nat) (r : PyStr) (h : pHour s = some (v, r)) :
    r.length + 1 ≤ s.length := by
  match s with
  | [] => simp [pHour] at h
  | [a] =>
    simp only [pHour] at h
    split at h <;> simp_all
  | a :: b :: t =>
    simp only [pHour] at h
    repeat' split at h
    all_goals simp_all

/-- The `%M` directive consumes at least one character. -/
theorem pMinute_length (s : PyStr) (v : Nat) (r : PyStr) (h : pMinute s = some (v, r)) :
    r.length + 1 ≤ s.length := by
  match s with
  | [] => simp [pMinute] at h
  | [a] =>
    simp only [pMinute] at h
    split at h <;> simp_all
  | a :: b :: t =>
    simp only [pMinute] at h
    repeat' split at h
    all_goals simp_all

/-- The `%S` directive consumes at least one character. -/
theorem pSecond_length (s : PyStr) (v : Nat) (r : PyStr) (h : pSecond s = some (v, r)) :
    r.length + 1 ≤ s.length := by
  match s with
  | [] => simp [pSecond] at h
  | [a] =>
    simp only [pSecond] at h
    split at h <;> simp_all
  | a :: b :: t =>
    simp only [pSecond] at h
    repeat' split at h
    all_goals simp_all

/-- A string accepted by the `%Y-%m-%d %H:%M:%S` format has at least 14
characters (so never exactly 10). -/
theorem strpYmdHMS_length (s : PyStr) (dtv : PyDateTime)
    (h : strpYmdHMS s = some dtv) : 14 ≤ s.length := by
  rw [strpYmdHMS] at h
  simp only [Option.bind_eq_some] at h
  obtain ⟨⟨y, r1⟩, hy, h⟩ := h
  simp only [Option.bind_eq_some] at h
  obtain ⟨r2, hl1, h⟩ := h
  obtain ⟨⟨mo, r3⟩, hmo, h⟩ := h
  simp only [Option.bind_eq_some] at h
  obtain ⟨r4, hl2, h⟩ := h
  obtain ⟨⟨d, r5⟩, hd, h⟩ := h
  simp only [Option.bind_eq_some] at h
  obtain ⟨r6, hl3, h⟩ := h
  obtain ⟨⟨hv, r7⟩, hhour, h⟩ := h
  simp only [Option.bind_eq_some] at h
  obtain ⟨r8, hl4, h⟩ := h
  obtain ⟨⟨mi, r9⟩, hmin, h⟩ := h
  simp only [Option.bind_eq_some] at h
  obtain ⟨r10, hl5, h⟩ := h
  obtain ⟨⟨sec, r11⟩, hsec, h⟩ := h
  by_cases hr : r11 = []
  · have e1 := pYear_length s y r1 hy
    have e2 := pLit_length '-' r1 r2 hl1
    have e3 := pMonth_length r2 mo r3 hmo
    have e4 := pLit_length '-' r3 r4 hl2
    have e5 := pDay_length r4 d r5 hd
    have e6 := pLit_length ' ' r5 r6 hl3
    have e7 := pHour_length r6 hv r7 hhour
    have e8 := pLit_length ':' r7 r8 hl4
    have e9 := pMinute_length r8 mi r9 hmin
    have e10 := pLit_length ':' r9 r10 hl5
    have e11 := pSecond_length r10 sec r11 hsec
    have e12 : r11.length = 0 := by rw [hr]; rfl
    omega
  · rw [if_neg hr] at h
    simp at h

/-- A string accepted by the `%Y-%m-%d %H:%M` format has at least 12
characters (so never exactly 10). -/
theorem strpYmdHM_length (s : PyStr) (dtv : PyDateTime)
    (h : strpYmdHM s = some dtv) : 12 ≤ s.length := by
  rw [strpYmdHM] at h
  simp only [Option.bind_eq_some] at h
  obtain ⟨⟨y, r1⟩, hy, h⟩ := h
  simp only [Option.bind_eq_some] at h
  obtain ⟨r2, hl1, h⟩ := h
  obtain ⟨⟨mo, r3⟩, hmo, h⟩ := h
  simp only [Option.bind_eq_some] at h
  obtain ⟨r4, hl2, h⟩ := h
  obtain ⟨⟨d, r5⟩, hd, h⟩ := h
  simp only [Option.bind_eq_some] at h
  obtain ⟨r6, hl3, h⟩ := h
  obtain ⟨⟨hv, r7⟩, hhour, h⟩ := h
  simp only [Option.bind_eq_some] at h
  obtain ⟨r8, hl4, h⟩ := h
  obtain ⟨⟨mi, r9⟩, hmin, h⟩ := h
  by_cases hr : r9 = []
  · have e1 := pYear_length s y r1 hy
    have e2 := pLit_length '-' r1 r2 hl1
    have e3 := pMonth_length r2 mo r3 hmo
    have e4 := pLit_length '-' r3 r4 hl2
    have e5 := pDay_length r4 d r5 hd
    have e6 := pLit_length ' ' r5 r6 hl3
    have e7 := pHour_length r6 hv r7 hhour
    have e8 := pLit_length ':' r7 r8 hl4
    have e9 := pMinute_length r8 mi r9 hmin
    have e10 : r9.length = 0 := by rw [hr]; rfl
    omega
  · rw [if_neg hr] at h
    simp at h

/-- Elimination form of a successful `get_time_range_bounds` call: both
bounds parsed and the end bound went through `widenEnd`. -/
theorem get_bounds_ok (start stop : Option TimeInput) (inc : PyStr)
    (s? e? : Option PyDateTime)
    (h : get_time_range_bounds start stop inc = .ok (s?, e?)) :
    parseOptBound start = .ok s? ∧
    ∃ e0, parseOptBound stop = .ok e0 ∧ e? = widenEnd stop e0 := by
  unfold get_time_range_bounds at h
  cases hps : parseOptBound start with
  | error e => rw [hps] at h; simp at h
  | ok s0 =>
    rw [hps] at h
    cases hpe : parseOptBound stop with
    | error e => rw [hpe] at h; simp at h
    | ok e0 =>
      rw [hpe] at h
      simp only [Except.ok.injEq, Prod.mk.injEq] at h
      exact ⟨h.1 ▸ rfl, e0, rfl, h.2.symm⟩

/-- A falsy bound (absent or empty string) parses to `None` without error. -/
theorem parseOptBound_falsy (b : Option TimeInput) (h : optTruthy b = false) :
    parseOptBound b = .ok none := by
  cases b with
  | none => rfl
  | some x =>
    simp only [optTruthy] at h
    simp [parseOptBound, h]

/-- A non-empty string bound that parses yields its parsed datetime. -/
theorem parseOptBound_str_ok (s : PyStr) (hs : s ≠ []) (dtv : PyDateTime)
    (hp : parse_time_input (.str s) = .ok dtv) :
    parseOptBound (some (.str s)) = .ok (some dtv) := by
  have hie : s.isEmpty = false := by simp [hs]
  simp [parseOptBound, tiTruthy, hie, hp, Except.map]

/-- A truthy bound that parses yields its parsed datetime. -/
theorem parseOptBound_truthy_ok (x : TimeInput) (ht : tiTruthy x = true)
    (dtv : PyDateTime) (hp : parse_time_input x = .ok dtv) :
    parseOptBound (some x) = .ok (some dtv) := by
  simp [parseOptBound, ht, hp, Except.map]

/-- Widening is the identity on an absent end bound. -/
theorem widenEnd_none (stop : Option TimeInput) : widenEnd stop none = none := by
  cases stop with
  | none => rfl
  | some x => cases x <;> rfl

/-- Widening a present end bound always leaves a present bound. -/
theorem widenEnd_some (stop : Option TimeInput) (dtv : PyDateTime) :
    ∃ dt2, widenEnd stop (some dtv) = some dt2 := by
  cases stop with
  | none => exact ⟨dtv, rfl⟩
  | some x =>
    cases x with
    | dt v => exact ⟨dtv, rfl⟩
    | date v => exact ⟨⟨dtv.date, timeMax⟩, rfl⟩
    | str s =>
      by_cases h : s.length = 10
      · exact ⟨⟨dtv.date, timeMax⟩, by simp [widenEnd, h]⟩
      · exact ⟨dtv, by simp [widenEnd, h]⟩

/-- Forward computation of `get_time_range_bounds` from its two bound
parses. -/
theorem get_of_parse (start stop : Option TimeInput) (inc : PyStr)
    (s0 e0 : Option PyDateTime)
    (hps : parseOptBound start = .ok s0) (hpe : parseOptBound stop = .ok e0) :
    get_time_range_bounds start stop inc = .ok (s0, widenEnd stop e0) := by
  unfold get_time_range_bounds
  rw [hps, hpe]

/-- A truthy optional bound is a present, truthy value. -/
theorem optTruthy_true_iff (b : Option TimeInput) :
    optTruthy b = true ↔ ∃ x, b = some x ∧ tiTruthy x = true := by
  cases b <;> simp [optTruthy]

/-- C4: an end bound supplied as a calendar date or as a 10-character date
string is widened to the last instant of its day (`23:59:59.999999`), while
an end bound supplied as a datetime object, or as a string matching one of
the two time-bearing formats, passes through unchanged. -/
theorem end_bound_widening :
    (∀ (start : Option TimeInput) (inc : PyStr) (d : PyDate)
        (s? e? : Option PyDateTime),
      get_time_range_bounds start (some (.date d)) inc = .ok (s?, e?) →
      e? = some ⟨d, timeMax⟩) ∧
    (∀ (start : Option TimeInput) (inc : PyStr) (s : PyStr) (dtv : PyDateTime)
        (s? e? : Option PyDateTime),
      s.length = 10 → parse_time_input (.str s) = .ok dtv →
      get_time_range_bounds start (some (.str s)) inc = .ok (s?, e?) →
      e? = some ⟨dtv.date, timeMax⟩) ∧
    (∀ (start : Option TimeInput) (inc : PyStr) (v : PyDateTime)
        (s? e? : Option PyDateTime),
      get_time_range_bounds start (some (.dt v)) inc = .ok (s?, e?) →
      e? = some v) ∧
    (∀ (start : Option TimeInput) (inc : PyStr) (s : PyStr) (dtv dt2 : PyDateTime)
        (s? e? : Option PyDateTime),
      (strpYmdHMS s = some dtv ∨ strpYmdHM s = some dtv) →
      parse_time_input (.str s) = .ok dt2 →
      get_time_range_bounds start (some (.str s)) inc = .ok (s?, e?) →
      e? = some dt2) := by
  refine ⟨?_, ?_, ?_, ?_⟩
  · intro start inc d s? e? hg
    obtain ⟨hps, e0, hpe, hw⟩ := get_bounds_ok _ _ _ _ _ hg
    rw [show parseOptBound (some (TimeInput.date d)) =
          Except.ok (some (PyDateTime.mk d timeMin)) from rfl] at hpe
    have he0 := (Except.ok.inj hpe).symm
    rw [hw, he0]
    rfl
  · intro start inc s dtv s? e? hlen hp hg
    have hs : s ≠ [] := by
      intro he; rw [he] at hlen; simp at hlen
    obtain ⟨hps, e0, hpe, hw⟩ := get_bounds_ok _ _ _ _ _ hg
    rw [parseOptBound_str_ok s hs dtv hp] at hpe
    have he0 := (Except.ok.inj hpe).symm
    rw [hw, he0]
    simp [widenEnd, hlen]
  · intro start inc v s? e? hg
    obtain ⟨hps, e0, hpe, hw⟩ := get_bounds_ok _ _ _ _ _ hg
    rw [show parseOptBound (some (TimeInput.dt v)) = Except.ok (some v) from rfl] at hpe
    have he0 := (Except.ok.inj hpe).symm
    rw [hw, he0]
    rfl
  · intro start inc s dtv dt2 s? e? hfmt hp hg
    have hge : 12 ≤ s.length := by
      rcases hfmt with hf | hf
      · have := strpYmdHMS_length s dtv hf; omega
      · exact strpYmdHM_length s dtv hf
    have hne10 : ¬(s.length = 10) := by omega
    have hs : s ≠ [] := by
      intro he; rw [he] at hge; simp at hge
    obtain ⟨hps, e0, hpe, hw⟩ := get_bounds_ok _ _ _ _ _ hg
    rw [parseOptBound_str_ok s hs dt2 hp] at hpe
    have he0 := (Except.ok.inj hpe).symm
    rw [hw, he0]
    simp [widenEnd, hne10]

/-- C4 witness: the bare date string `2024-01-31` is widened. -/
theorem end_bound_widening_witness :
    (("2024-01-31").toList).length = 10 ∧
    parse_time_input (.str (("2024-01-31").toList)) =
      .ok ⟨⟨2024, 1, 31⟩, timeMin⟩ ∧
    (some (⟨⟨2024, 1, 31⟩, timeMax⟩ : PyDateTime) = some ⟨⟨2024, 1, 31⟩, timeMax⟩) :=
  ⟨rfl, rfl,
   end_bound_widening.2.1 none [] (("2024-01-31").toList) ⟨⟨2024, 1, 31⟩, timeMin⟩
     none (some ⟨⟨2024, 1, 31⟩, timeMax⟩) rfl rfl rfl⟩

/-- `get_time_range_bounds` ignores its `inclusive` argument. -/
theorem get_inc_irrelevant (start stop : Option TimeInput) (i j : PyStr) :
    get_time_range_bounds start stop i = get_time_range_bounds start stop j := rfl

/-- C5: the inclusivity mode selects the operator pairs `both` ↦
\x7bgte, lte\x7d, `start` ↦ \x7bgte, lt\x7d, `end` ↦ \x7bgt, lte\x7d, `neither` ↦
\x7bgt, lt\x7d, and an omitted bound contributes no operator. -/
theorem build_mode_operator_mapping (field : PyStr) (start stop : Option TimeInput)
    (s? e? : Option PyDateTime)
    (hg : get_time_range_bounds start stop (("both").toList) = .ok (s?, e?))
    (hne : ¬(s? = none ∧ e? = none)) :
    build_time_range_query field start stop (("both").toList) =
      .ok ⟨field, ⟨s?.map isoformat, none, e?.map isoformat, none⟩⟩ ∧
    build_time_range_query field start stop (("start").toList) =
      .ok ⟨field, ⟨s?.map isoformat, none, none, e?.map isoformat⟩⟩ ∧
    build_time_range_query field start stop (("end").toList) =
      .ok ⟨field, ⟨none, s?.map isoformat, e?.map isoformat, none⟩⟩ ∧
    build_time_range_query field start stop (("neither").toList) =
      .ok ⟨field, ⟨none, s?.map isoformat, none, e?.map isoformat⟩⟩ := by
  refine ⟨?_, ?_, ?_, ?_⟩ <;>
  · unfold build_time_range_query
    rw [get_inc_irrelevant start stop _ (("both").toList), hg]
    rcases s? with _ | sd <;> rcases e? with _ | ed
    · exact absurd ⟨rfl, rfl⟩ hne
    all_goals simp +decide [RangeQ.mk.injEq, RangeParams.mk.injEq]

/-- C5 witness: a concrete query on `2024-01-01 .. 2024-01-31`. -/
theorem build_mode_operator_mapping_witness :
    get_time_range_bounds (some (.str (("2024-01-01").toList)))
        (some (.str (("2024-01-31").toList))) (("both").toList) =
      .ok (some ⟨⟨2024, 1, 1⟩, timeMin⟩, some ⟨⟨2024, 1, 31⟩, timeMax⟩) ∧
    build_time_range_query (("ts").toList) (some (.str (("2024-01-01").toList)))
        (some (.str (("2024-01-31").toList))) (("start").toList) =
      .ok ⟨("ts").toList,
           ⟨some (isoformat ⟨⟨2024, 1, 1⟩, timeMin⟩), none, none,
            some (isoformat ⟨⟨2024, 1, 31⟩, timeMax⟩)⟩⟩ :=
  ⟨rfl,
   (build_mode_operator_mapping (("ts").toList)
      (some (.str (("2024-01-01").toList)))
      (some (.str (("2024-01-31").toList)))
      (some ⟨⟨2024, 1, 1⟩, timeMin⟩) (some ⟨⟨2024, 1, 31⟩, timeMax⟩)
      rfl (by simp)).2.1⟩

/-- A successful bounds computation leads either to the missing-bounds
error with both bounds absent, or to a returned filter. -/
theorem build_shape (field : PyStr) (start stop : Option TimeInput) (inc : PyStr)
    (s? e? : Option PyDateTime)
    (hg : get_time_range_bounds start stop inc = .ok (s?, e?)) :
    (s? = none ∧ e? = none ∧
      build_time_range_query field start stop inc =
        .error (.valueError mustProvideMsg)) ∨
    (∃ q, build_time_range_query field start stop inc = .ok q) := by
  unfold build_time_range_query
  rw [hg]
  rcases s? with _ | sd <;> rcases e? with _ | ed
  · exact .inl ⟨rfl, rfl, rfl⟩
  all_goals right
  all_goals by_cases c1 : inc = ("both").toList ∨ inc = ("start").toList <;>
    by_cases c2 : inc = ("both").toList ∨ inc = ("end").toList <;>
    simp_all [RangeParams.mk.injEq]

/-- C6: when every supplied bound parses, `build_time_range_query` raises
the missing-bounds `ValueError` exactly when neither bound is supplied
(truthy), and returns a filter whenever at least one is. -/
theorem build_missing_bounds_error (field : PyStr) (start stop : Option TimeInput)
    (inc : PyStr)
    (hs : ∀ x, start = some x → tiTruthy x = true → ∃ dtv, parse_time_input x = .ok dtv)
    (he : ∀ x, stop = some x → tiTruthy x = true → ∃ dtv, parse_time_input x = .ok dtv) :
    (build_time_range_query field start stop inc =
        .error (.valueError mustProvideMsg) ↔
      optTruthy start = false ∧ optTruthy stop = false) ∧
    (optTruthy start = true ∨ optTruthy stop = true →
      ∃ q, build_time_range_query field start stop inc = .ok q) := by
  have herr : optTruthy start = false → optTruthy stop = false →
      build_time_range_query field start stop inc =
        .error (.valueError mustProvideMsg) := by
    intro h1 h2
    have hg := get_of_parse start stop inc none none
      (parseOptBound_falsy start h1) (parseOptBound_falsy stop h2)
    rw [widenEnd_none] at hg
    unfold build_time_range_query
    rw [hg]
    rfl
  have hok : optTruthy start = true ∨ optTruthy stop = true →
      ∃ q, build_time_range_query field start stop inc = .ok q := by
    intro hor
    have hsres : ∃ s0, parseOptBound start = .ok s0 ∧
        (optTruthy start = true → s0 ≠ none) := by
      cases hb : optTruthy start with
      | false => exact ⟨none, parseOptBound_falsy start hb, by simp⟩
      | true =>
        obtain ⟨x, hbx, htx⟩ := (optTruthy_true_iff start).mp hb
        obtain ⟨dtv, hdt⟩ := hs x hbx htx
        exact ⟨some dtv,
          by rw [hbx]; exact parseOptBound_truthy_ok x htx dtv hdt, by simp⟩
    have heres : ∃ e0, parseOptBound stop = .ok e0 ∧
        (optTruthy stop = true → e0 ≠ none) := by
      cases hb : optTruthy stop with
      | false => exact ⟨none, parseOptBound_falsy stop hb, by simp⟩
      | true =>
        obtain ⟨x, hbx, htx⟩ := (optTruthy_true_iff stop).mp hb
        obtain ⟨dtv, hdt⟩ := he x hbx htx
        exact ⟨some dtv,
          by rw [hbx]; exact parseOptBound_truthy_ok x htx dtv hdt, by simp⟩
    obtain ⟨s0, hps, hsne⟩ := hsres
    obtain ⟨e0, hpe, hene⟩ := heres
    have hg := get_of_parse start stop inc s0 e0 hps hpe
    rcases build_shape field start stop inc _ _ hg with ⟨hn1, hn2, _⟩ | hq
    · exfalso
      rcases hor with hb | hb
      · rcases s0 with _ | sd
        · exact hsne hb rfl
        · exact Option.noConfusion hn1
      · rcases e0 with _ | ed
        · exact hene hb rfl
        · obtain ⟨dt2, hw⟩ := widenEnd_some stop ed
          rw [hw] at hn2
          exact Option.noConfusion hn2
    · exact hq
  refine ⟨⟨?_, ?_⟩, hok⟩
  · intro h
    cases hb1 : optTruthy start with
    | true =>
      obtain ⟨q, hq⟩ := hok (Or.inl hb1)
      rw [hq] at h
      exact Except.noConfusion h
    | false =>
      cases hb2 : optTruthy stop with
      | true =>
        obtain ⟨q, hq⟩ := hok (Or.inr hb2)
        rw [hq] at h
        exact Except.noConfusion h
      | false => exact ⟨rfl, rfl⟩
  · intro hb
    exact herr hb.1 hb.2

/-- C6 witness: no bounds raises; a single start bound succeeds. -/
theorem build_missing_bounds_error_witness :
    (build_time_range_query (("ts").toList) none none (("both").toList) =
        .error (.valueError mustProvideMsg) ↔
      optTruthy none = false ∧ optTruthy none = false) ∧
    (optTruthy (some (.str (("2024-01-01").toList))) = true ∨
        optTruthy (none : Option TimeInput) = true →
      ∃ q, build_time_range_query (("ts").toList)
        (some (.str (("2024-01-01").toList))) none (("both").toList) = .ok q) :=
  ⟨(build_missing_bounds_error (("ts").toList) none none (("both").toList)
      (by intro x hx; exact absurd hx (by simp))
      (by intro x hx; exact absurd hx (by simp))).1,
   (build_missing_bounds_error (("ts").toList)
      (some (.str (("2024-01-01").toList))) none (("both").toList)
      (by intro x hx ht
          rw [← Option.some.inj hx]
          exact ⟨⟨⟨2024, 1, 1⟩, timeMin⟩, rfl⟩)
      (by intro x hx; exact absurd hx (by simp))).2⟩

/-- C7: `parse_date_string` returns `None` and raises nothing on empty,
`None` or non-string input, and likewise when the relative table and
patterns match nothing and both `dateutil` attempts fail with the
exceptions the source catches. -/
theorem parse_date_string_absent :
    (∀ (applyRel : RelShift) (du1 du2 : PyStr → Except DuErr PyDateTime)
        (now : PyDateTime) (ri im : Bool),
      parse_date_string applyRel du1 du2 now .noneV ri im = .ok none ∧
      parse_date_string applyRel du1 du2 now .other ri im = .ok none ∧
      parse_date_string applyRel du1 du2 now (.str []) ri im = .ok none) ∧
    (∀ (applyRel : RelShift) (du1 du2 : PyStr → Except DuErr PyDateTime)
        (now : PyDateTime) (ri im : Bool) (s : PyStr),
      s ≠ [] →
      parse_relative_date applyRel now (pyStrip s) = none →
      duFails (du1 (pyStrip s)) → duFails (du2 (pyStrip s)) →
      parse_date_string applyRel du1 du2 now (.str s) ri im = .ok none) := by
  constructor
  · intro applyRel du1 du2 now ri im
    exact ⟨rfl, rfl, rfl⟩
  · intro applyRel du1 du2 now ri im s hs hrel hf1 hf2
    simp only [parse_date_string]
    rw [if_neg hs]
    simp only [hrel]
    rcases hf1 with h1 | h1 <;> rcases hf2 with h2 | h2 <;> rw [h1, h2] <;> rfl

/-- C7 witness: the unparseable string `zz` with both attempts failing. -/
theorem parse_date_string_absent_witness :
    (("zz").toList ≠ []) ∧
    parse_relative_date (fun d _ _ => d) ⟨⟨2024, 1, 1⟩, timeMin⟩
      (pyStrip (("zz").toList)) = none ∧
    parse_date_string (fun d _ _ => d) (fun _ => .error .parserError)
      (fun _ => .error .valueError) ⟨⟨2024, 1, 1⟩, timeMin⟩
      (.str (("zz").toList)) true true = .ok none :=
  ⟨by simp, rfl,
   parse_date_string_absent.2 (fun d _ _ => d) (fun _ => .error .parserError)
     (fun _ => .error .valueError) ⟨⟨2024, 1, 1⟩, timeMin⟩ true true
     (("zz").toList) (by simp) rfl (Or.inl rfl) (Or.inr rfl)⟩
